import Mathlib

/-!
Verification of the expense-tracker end-to-end flow script
(jules-scratch/verification/verify_edit_expense.py).

The script drives a headless browser against a local dashboard: it
launches a browser inside a scoped acquisition block, opens a page,
runs a fixed linear sequence of navigation / click / visibility-assertion /
screenshot steps inside a protected block whose cleanup clause closes the
browser, and exits.

We embed the script shallowly.  The external world (the dashboard DOM,
the network, the filesystem) is opaque to the script, so it is modelled
by an environment `Env` of oracles: whether navigation succeeds, which
controls the rendered page contains when a given step runs, which texts
are visible at each poll tick, and whether a screenshot write succeeds.
Running the script against an environment yields the trace of events it
performed and an optional first error.
-/

namespace ExpTrack

/-- An interactive control of the rendered page, as seen through the
accessibility queries the script uses: a role and an accessible name. -/
structure Control where
  role : String
  name : String
deriving DecidableEq, Repr

/-- The failures the run distinguishes: navigation failure, missing
element, a strict-mode ambiguity on a non-`.first` locator, a visibility
assertion timing out (the error records the text it waited for),
a screenshot write failing, and failures of launch / new page. -/
inductive Err where
  | navError : Err
  | notFound : String → Err
  | strictViolation : String → Err
  | timeout : String → Err
  | writeError : String → Err
  | launchError : Err
  | newPageError : Err
deriving DecidableEq, Repr

/-- One step of the script body (the code between lines 10 and 40 of
verify_edit_expense.py): page.goto, page.screenshot,
get_by_role("button", name=n).first.click(), get_by_role("button",
name=n).click() (strict, no .first), expect(get_by_text t).to_be_visible(),
and page.go_back(). -/
inductive Step where
  | goto : String → Step
  | screenshot : String → Step
  | clickFirstButton : String → Step
  | clickButton : String → Step
  | expectVisible : String → Step
  | goBack : Step
deriving DecidableEq, Repr

/-- The environment: everything outside the script that decides whether
each action succeeds.  `controlsAt i` is the list of controls the rendered
page contains when the body step of index `i` runs; `visibleAt i t txt`
says whether text `txt` is visible at poll tick `t` during step `i`;
`content p` is the image content a screenshot would store at path `p`. -/
structure Env where
  launchOk : Bool
  newPageOk : Bool
  gotoOk : String → Bool
  writeOk : String → Bool
  goBackOk : Bool
  controlsAt : Nat → List Control
  visibleAt : Nat → Nat → String → Bool
  content : String → Nat

/-- Controls matching role "button" and the given accessible name:
the locator set of `page.get_by_role("button", name=name)`. -/
def findButtons (cs : List Control) (name : String) : List Control :=
  cs.filter (fun c => c.role == "button" && c.name == name)

/-- The control selected by `.first` on the button locator: the first
element of the matching set, if any. -/
def firstButton (cs : List Control) (name : String) : Option Control :=
  (findButtons cs name).head?

/-- Clicking `get_by_role("button", name=name).first`: succeeds when the
matching set is nonempty (the first match is invoked), otherwise the
click fails with an element-not-found error. -/
def clickFirstResult (cs : List Control) (name : String) : Option Err :=
  match firstButton cs name with
  | none => some (Err.notFound name)
  | some _ => none

/-- Clicking `get_by_role("button", name=name)` without `.first`
(strict mode): succeeds only when exactly one control matches; an empty
matching set is an element-not-found error, two or more matches a
strict-mode ambiguity error. -/
def clickStrictResult (cs : List Control) (name : String) : Option Err :=
  match findButtons cs name with
  | [] => some (Err.notFound name)
  | [_] => none
  | _ :: _ :: _ => some (Err.strictViolation name)

/-- Number of re-checks a visibility assertion performs after the initial
check before giving up: the fixed default wait window of the automation
layer (5000 ms polled at fixed intervals), modelled as a fixed tick count. -/
def pollTimeoutTicks : Nat := 50

/-- Bounded polling: check now; if the check fails and fuel remains, wait
one tick and retry.  Structurally recursive, hence always terminates. -/
def poll (check : Nat → Bool) : Nat → Nat → Bool
  | 0, t => check t
  | n + 1, t => check t || poll check n (t + 1)

/-- Result of `expect(page.get_by_text(text)).to_be_visible()`: a
polling wait that succeeds as soon as the text is visible at some tick
within the fixed window, and otherwise fails with a timeout error
naming the text. -/
def expectVisibleResult (env : Env) (i : Nat) (text : String) : Option Err :=
  if poll (fun t => env.visibleAt i t text) pollTimeoutTicks 0 then none
  else some (Err.timeout text)

/-- Semantics of one body step of index `i` against the environment:
`none` when the step completes, `some e` when it raises `e`. -/
def runStep (env : Env) (i : Nat) : Step → Option Err
  | Step.goto url => if env.gotoOk url then none else some Err.navError
  | Step.screenshot p => if env.writeOk p then none else some (Err.writeError p)
  | Step.clickFirstButton name => clickFirstResult (env.controlsAt i) name
  | Step.clickButton name => clickStrictResult (env.controlsAt i) name
  | Step.expectVisible text => expectVisibleResult env i text
  | Step.goBack => if env.goBackOk then none else some Err.navError

/-- The body of the try block, in source order (lines 10-40):
goto; screenshot; click first "Edit"; expect "Edit Expense"; screenshot;
click "Update Expense" (strict); expect "No Changes"; screenshot;
go_back; expect "Discard changes?"; screenshot. -/
def bodySteps : List Step :=
  [ Step.goto "http://localhost:8081",
    Step.screenshot "jules-scratch/verification/dashboard-page.png",
    Step.clickFirstButton "Edit",
    Step.expectVisible "Edit Expense",
    Step.screenshot "jules-scratch/verification/edit-expense-page.png",
    Step.clickButton "Update Expense",
    Step.expectVisible "No Changes",
    Step.screenshot "jules-scratch/verification/no-changes-alert.png",
    Step.goBack,
    Step.expectVisible "Discard changes?",
    Step.screenshot "jules-scratch/verification/discard-changes-alert.png" ]

/-- Running a list of body steps sequentially from index `i`: returns the
steps that completed and the first error, if any.  Execution stops at the
first failing step; no later step runs and nothing is retried. -/
def runBody (env : Env) : Nat → List Step → List Step × Option Err
  | _, [] => ([], none)
  | i, s :: rest =>
    match runStep env i s with
    | some e => ([], some e)
    | none =>
      let r := runBody env (i + 1) rest
      (s :: r.1, r.2)

/-- Observable events of a whole run: entering the sync_playwright scope,
launching the browser, opening the page, a body step completing, the
cleanup clause closing the browser, and the scope exiting. -/
inductive RVEvent where
  | pwStart : RVEvent
  | launch : RVEvent
  | newPage : RVEvent
  | step : Step → RVEvent
  | close : RVEvent
  | pwExit : RVEvent
deriving DecidableEq, Repr

/-- The whole of `run_verification`: enter the sync_playwright scope,
launch the browser and open a page (both before the try block), run the
body under try/finally with `browser.close()` in the cleanup clause, and
leave the scope.  A failure of launch or new_page skips the try block
entirely, so no `close` event is emitted for those paths; the scope exit
still runs.  Returns the event trace and the propagated error, if any. -/
def run_verification (env : Env) : List RVEvent × Option Err :=
  if env.launchOk then
    if env.newPageOk then
      let r := runBody env 0 bodySteps
      ([RVEvent.pwStart, RVEvent.launch, RVEvent.newPage]
         ++ r.1.map RVEvent.step ++ [RVEvent.close, RVEvent.pwExit], r.2)
    else ([RVEvent.pwStart, RVEvent.launch, RVEvent.pwExit], some Err.newPageError)
  else ([RVEvent.pwStart, RVEvent.pwExit], some Err.launchError)

/-- The body steps that completed during the run (empty when launch or
new_page failed, since then the body never starts). -/
def completedSteps (env : Env) : List Step :=
  if env.launchOk && env.newPageOk then (runBody env 0 bodySteps).1 else []

/-- Number of occurrences of one event in a trace. -/
def countEvent (e : RVEvent) : List RVEvent → Nat
  | [] => 0
  | x :: xs => (if x = e then 1 else 0) + countEvent e xs

/-- The `if __name__ == "__main__":` entry point: it passes no arguments,
reads no flags and no environment variables; the process exit status is 0
when `run_verification` returns normally and 1 when an unhandled failure
propagates out of it. -/
def mainExitCode (env : Env) : Nat :=
  match (run_verification env).2 with
  | none => 0
  | some _ => 1

/-- The screenshot paths the script writes, in the order it writes them;
all inside the one fixed relative directory jules-scratch/verification. -/
def screenshotPaths : List String :=
  [ "jules-scratch/verification/dashboard-page.png",
    "jules-scratch/verification/edit-expense-page.png",
    "jules-scratch/verification/no-changes-alert.png",
    "jules-scratch/verification/discard-changes-alert.png" ]

/-- Paths written by a list of completed steps, in order. -/
def writesOf : List Step → List String
  | [] => []
  | Step.screenshot p :: rest => p :: writesOf rest
  | _ :: rest => writesOf rest

/-- Effect of one completed step on the filesystem (modelled as a map
from path to stored content): a screenshot stores the captured content at
its path, replacing whatever was there; every other step leaves the
filesystem unchanged. -/
def stepWrite (env : Env) (fs : String → Option Nat) : Step → String → Option Nat
  | Step.screenshot p => fun q => if q = p then some (env.content p) else fs q
  | _ => fs

/-- Filesystem after running a list of completed steps from `fs`. -/
def runFS (env : Env) (fs : String → Option Nat) : List Step → String → Option Nat
  | [] => fs
  | s :: rest => runFS env (stepWrite env fs s) rest

/-- An environment in which every external interaction succeeds: the
dashboard page has one Edit button and one Update Expense button, every
text is visible at once, navigation and writes succeed. -/
def goodEnv : Env :=
  { launchOk := true, newPageOk := true, gotoOk := fun _ => true,
    writeOk := fun _ => true, goBackOk := true,
    controlsAt := fun _ => [⟨"button", "Edit"⟩, ⟨"button", "Update Expense"⟩],
    visibleAt := fun _ _ _ => true, content := fun _ => 0 }

/-- Environment in which the initial navigation to the dashboard fails
(dashboard not running: connection refused). -/
def envGotoFail : Env :=
  { launchOk := true, newPageOk := true, gotoOk := fun _ => false,
    writeOk := fun _ => true, goBackOk := true, controlsAt := fun _ => [],
    visibleAt := fun _ _ _ => true, content := fun _ => 0 }

/-- Environment where the browser launches but opening the page fails. -/
def envNoPage : Env :=
  { launchOk := true, newPageOk := false, gotoOk := fun _ => true,
    writeOk := fun _ => true, goBackOk := true, controlsAt := fun _ => [],
    visibleAt := fun _ _ _ => true, content := fun _ => 0 }

/-- Environment whose dashboard page renders with no Edit button. -/
def envNoEdit : Env :=
  { launchOk := true, newPageOk := true, gotoOk := fun _ => true,
    writeOk := fun _ => true, goBackOk := true, controlsAt := fun _ => [],
    visibleAt := fun _ _ _ => true, content := fun _ => 0 }

/-- Environment whose page carries two buttons named Update Expense. -/
def envTwoUpdate : Env :=
  { launchOk := true, newPageOk := true, gotoOk := fun _ => true,
    writeOk := fun _ => true, goBackOk := true,
    controlsAt := fun _ =>
      [⟨"button", "Edit"⟩, ⟨"button", "Update Expense"⟩,
       ⟨"button", "Update Expense"⟩],
    visibleAt := fun _ _ _ => true, content := fun _ => 0 }

/- ## General lemmas about the run -/

theorem countEvent_append (e : RVEvent) (l1 l2 : List RVEvent) :
    countEvent e (l1 ++ l2) = countEvent e l1 + countEvent e l2 := by
  induction l1 with
  | nil => simp [countEvent]
  | cons x xs ih => simp [countEvent, ih, Nat.add_assoc]

theorem countEvent_map_step (e : RVEvent) (h : ∀ s, RVEvent.step s ≠ e)
    (l : List Step) : countEvent e (l.map RVEvent.step) = 0 := by
  induction l with
  | nil => rfl
  | cons s xs ih => simp [countEvent, ih, h s]

theorem runBody_none (env : Env) :
    ∀ (l : List Step) (i : Nat),
      (runBody env i l).2 = none → (runBody env i l).1 = l := by
  intro l
  induction l with
  | nil => intro i _; rfl
  | cons s rest ih =>
    intro i h
    cases hs : runStep env i s with
    | some e => simp [runBody, hs] at h
    | none =>
      have h2 : (runBody env (i + 1) rest).2 = none := by
        simpa [runBody, hs] using h
      simp [runBody, hs, ih (i + 1) h2]

theorem run_verification_ok_body (env : Env)
    (h1 : env.launchOk = true) (h2 : env.newPageOk = true) :
    run_verification env =
      ([RVEvent.pwStart, RVEvent.launch, RVEvent.newPage]
         ++ (runBody env 0 bodySteps).1.map RVEvent.step
         ++ [RVEvent.close, RVEvent.pwExit],
       (runBody env 0 bodySteps).2) := by
  simp [run_verification, h1, h2]

theorem run_success_launch (env : Env) (h : (run_verification env).2 = none) :
    env.launchOk = true ∧ env.newPageOk = true := by
  by_cases h1 : env.launchOk = true
  · by_cases h2 : env.newPageOk = true
    · exact ⟨h1, h2⟩
    · rw [Bool.not_eq_true] at h2
      simp [run_verification, h1, h2] at h
  · rw [Bool.not_eq_true] at h1
    simp [run_verification, h1] at h

theorem runBody_fail (env : Env) (e : Err) :
    ∀ (l : List Step) (i : Nat), (runBody env i l).2 = some e →
      ∃ k s, l[k]? = some s ∧ (runBody env i l).1 = l.take k ∧
        runStep env (i + k) s = some e ∧
        ∀ j, j < k → ∃ s2, l[j]? = some s2 ∧ runStep env (i + j) s2 = none := by
  intro l
  induction l with
  | nil => intro i h; simp [runBody] at h
  | cons s rest ih =>
    intro i h
    cases hs : runStep env i s with
    | some e2 =>
      have he : e2 = e := by simpa [runBody, hs] using h
      subst he
      refine ⟨0, s, by simp, ?_, by simpa using hs, by intro j hj; omega⟩
      simp [runBody, hs]
    | none =>
      have h2 : (runBody env (i + 1) rest).2 = some e := by
        simpa [runBody, hs] using h
      obtain ⟨k, s2, hget, hdone, hstep, hprev⟩ := ih (i + 1) h2
      refine ⟨k + 1, s2, by simpa using hget, ?_, ?_, ?_⟩
      · simp [runBody, hs, List.take_succ_cons, hdone]
      · have hik : i + (k + 1) = i + 1 + k := by omega
        rw [hik]; exact hstep
      · intro j hj
        cases j with
        | zero => exact ⟨s, by simp, hs⟩
        | succ j2 =>
          obtain ⟨s3, hg, hr⟩ := hprev j2 (by omega)
          refine ⟨s3, by simpa using hg, ?_⟩
          have hij : i + (j2 + 1) = i + 1 + j2 := by omega
          rw [hij]; exact hr

theorem poll_eq_true_iff (check : Nat → Bool) :
    ∀ (n t : Nat), poll check n t = true ↔ ∃ k, k ≤ n ∧ check (t + k) = true := by
  intro n
  induction n with
  | zero =>
    intro t
    constructor
    · intro h; exact ⟨0, Nat.le_refl 0, h⟩
    · rintro ⟨k, hk, hc⟩
      have hk0 : k = 0 := Nat.le_zero.mp hk
      subst hk0; simpa using hc
  | succ n ih =>
    intro t
    constructor
    · intro h
      rcases Bool.or_eq_true_iff.mp h with hc | hp
      · exact ⟨0, Nat.zero_le _, by simpa using hc⟩
      · obtain ⟨k, hk, hc⟩ := (ih (t + 1)).mp hp
        refine ⟨k + 1, by omega, ?_⟩
        have : t + (k + 1) = t + 1 + k := by omega
        rw [this]; exact hc
    · rintro ⟨k, hk, hc⟩
      cases k with
      | zero =>
        apply Bool.or_eq_true_iff.mpr
        exact Or.inl (by simpa using hc)
      | succ k2 =>
        apply Bool.or_eq_true_iff.mpr
        refine Or.inr ((ih (t + 1)).mpr ⟨k2, by omega, ?_⟩)
        have : t + 1 + k2 = t + (k2 + 1) := by omega
        rw [this]; exact hc

theorem head_filter_eq_find (p : Control → Bool) :
    ∀ l : List Control, (l.filter p).head? = l.find? p := by
  intro l
  induction l with
  | nil => rfl
  | cons a l ih =>
    by_cases h : p a = true
    · simp [List.filter_cons, h, List.find?_cons_of_pos _ h]
    · have h2 : p a = false := by
        cases hpa : p a
        · rfl
        · exact absurd hpa h
      simp [List.filter_cons, h2, List.find?_cons_of_neg, ih]

theorem clickStrict_of_two (cs : List Control) (name : String)
    (h : 2 ≤ (findButtons cs name).length) :
    clickStrictResult cs name = some (Err.strictViolation name) := by
  rcases hfb : findButtons cs name with _ | ⟨a, _ | ⟨b, l⟩⟩
  · rw [hfb] at h; simp at h
  · rw [hfb] at h; simp at h
  · simp [clickStrictResult, hfb]

theorem clickFirst_of_ne_nil (cs : List Control) (name : String)
    (h : findButtons cs name ≠ []) : clickFirstResult cs name = none := by
  rcases hfb : findButtons cs name with _ | ⟨a, l⟩
  · exact absurd hfb h
  · simp [clickFirstResult, firstButton, hfb]

theorem runBody_append (env : Env) :
    ∀ (l1 l2 : List Step) (i : Nat),
      (runBody env i l1).2 = none →
      runBody env i (l1 ++ l2) =
        ((runBody env i l1).1 ++ (runBody env (i + l1.length) l2).1,
         (runBody env (i + l1.length) l2).2) := by
  intro l1
  induction l1 with
  | nil => intro l2 i _; simp [runBody]
  | cons s rest ih =>
    intro l2 i h
    cases hs : runStep env i s with
    | some e => simp [runBody, hs] at h
    | none =>
      have h2 : (runBody env (i + 1) rest).2 = none := by
        simpa [runBody, hs] using h
      have harith : i + 1 + rest.length = i + (rest.length + 1) := by omega
      rw [show (s :: rest) ++ l2 = s :: (rest ++ l2) from rfl]
      simp [runBody, hs, ih l2 (i + 1) h2, harith]

theorem runFS_frame (env : Env) :
    ∀ (l : List Step) (fs : String → Option Nat) (q : String),
      q ∉ writesOf l → runFS env fs l q = fs q := by
  intro l
  induction l with
  | nil => intro fs q _; rfl
  | cons s rest ih =>
    intro fs q hq
    cases s with
    | screenshot p =>
      have hqp : ¬ q = p := fun he => hq (by simp [writesOf, he])
      have hq2 : q ∉ writesOf rest := fun hm => hq (by simp [writesOf, hm])
      rw [show runFS env fs (Step.screenshot p :: rest) =
            runFS env (stepWrite env fs (Step.screenshot p)) rest from rfl,
          ih _ q hq2]
      simp [stepWrite, hqp]
    | goto u => exact ih _ q (by simpa [writesOf] using hq)
    | clickFirstButton n => exact ih _ q (by simpa [writesOf] using hq)
    | clickButton n => exact ih _ q (by simpa [writesOf] using hq)
    | expectVisible t => exact ih _ q (by simpa [writesOf] using hq)
    | goBack => exact ih _ q (by simpa [writesOf] using hq)

theorem runFS_written (env : Env) :
    ∀ (l : List Step) (fs : String → Option Nat) (q : String),
      q ∈ writesOf l → runFS env fs l q = some (env.content q) := by
  intro l
  induction l with
  | nil => intro fs q hq; simp [writesOf] at hq
  | cons s rest ih =>
    intro fs q hq
    cases s with
    | screenshot p =>
      by_cases hq2 : q ∈ writesOf rest
      · exact ih _ q hq2
      · have hqp : q = p := by
          rcases (by simpa [writesOf] using hq : q = p ∨ q ∈ writesOf rest)
            with h | h
          · exact h
          · exact absurd h hq2
        rw [show runFS env fs (Step.screenshot p :: rest) =
              runFS env (stepWrite env fs (Step.screenshot p)) rest from rfl,
            runFS_frame env rest _ q hq2]
        simp [stepWrite, hqp]
    | goto u => exact ih _ q (by simpa [writesOf] using hq)
    | clickFirstButton n => exact ih _ q (by simpa [writesOf] using hq)
    | clickButton n => exact ih _ q (by simpa [writesOf] using hq)
    | expectVisible t => exact ih _ q (by simpa [writesOf] using hq)
    | goBack => exact ih _ q (by simpa [writesOf] using hq)

/- ## Claim theorems -/

/-- Claim C1: for every run of run_verification that reaches the body
(the four exit paths the claim lists — normal completion, assertion
timeout, element-lookup failure, navigation failure — all do), exactly
one browser is launched and the browser is closed exactly once,
whatever the body's outcome. -/
theorem C1_browser_acquired_released_once (env : Env)
    (h1 : env.launchOk = true) (h2 : env.newPageOk = true) :
    countEvent RVEvent.launch (run_verification env).1 = 1 ∧
    countEvent RVEvent.close (run_verification env).1 = 1 := by
  rw [run_verification_ok_body env h1 h2]
  have hl : countEvent RVEvent.launch
      ((runBody env 0 bodySteps).1.map RVEvent.step) = 0 :=
    countEvent_map_step _ (fun s hc => RVEvent.noConfusion hc) _
  have hc : countEvent RVEvent.close
      ((runBody env 0 bodySteps).1.map RVEvent.step) = 0 :=
    countEvent_map_step _ (fun s hc => RVEvent.noConfusion hc) _
  constructor
  · simp [countEvent_append, countEvent, hl]
  · simp [countEvent_append, countEvent, hc]

/-- Witness for C1: in the all-successful environment, exactly one
launch event and one close event occur. -/
theorem C1_browser_acquired_released_once_witness :
    countEvent RVEvent.launch (run_verification goodEnv).1 = 1 ∧
    countEvent RVEvent.close (run_verification goodEnv).1 = 1 :=
  C1_browser_acquired_released_once goodEnv rfl rfl

/-- Claim C2: a successful run performs exactly the fixed ordered
sequence with no branching: navigate, screenshot, click first Edit,
assert Edit Expense, screenshot, click Update Expense, assert No
Changes, screenshot, go back, assert Discard changes?, screenshot,
close; sequentiality is built into runBody, which starts each step only
after the previous one returned without error. -/
theorem C2_fixed_sequence (env : Env)
    (h : (run_verification env).2 = none) :
    (run_verification env).1 =
      [RVEvent.pwStart, RVEvent.launch, RVEvent.newPage,
       RVEvent.step (Step.goto "http://localhost:8081"),
       RVEvent.step (Step.screenshot "jules-scratch/verification/dashboard-page.png"),
       RVEvent.step (Step.clickFirstButton "Edit"),
       RVEvent.step (Step.expectVisible "Edit Expense"),
       RVEvent.step (Step.screenshot "jules-scratch/verification/edit-expense-page.png"),
       RVEvent.step (Step.clickButton "Update Expense"),
       RVEvent.step (Step.expectVisible "No Changes"),
       RVEvent.step (Step.screenshot "jules-scratch/verification/no-changes-alert.png"),
       RVEvent.step Step.goBack,
       RVEvent.step (Step.expectVisible "Discard changes?"),
       RVEvent.step (Step.screenshot "jules-scratch/verification/discard-changes-alert.png"),
       RVEvent.close, RVEvent.pwExit] := by
  obtain ⟨h1, h2⟩ := run_success_launch env h
  have hr := run_verification_ok_body env h1 h2
  rw [hr] at h
  have hb : (runBody env 0 bodySteps).1 = bodySteps :=
    runBody_none env bodySteps 0 h
  rw [hr, hb]
  rfl

/-- Witness for C2: the all-successful environment completes, and its
trace is the fixed sequence. -/
theorem C2_fixed_sequence_witness :
    (run_verification goodEnv).2 = none ∧
    (run_verification goodEnv).1 =
      [RVEvent.pwStart, RVEvent.launch, RVEvent.newPage,
       RVEvent.step (Step.goto "http://localhost:8081"),
       RVEvent.step (Step.screenshot "jules-scratch/verification/dashboard-page.png"),
       RVEvent.step (Step.clickFirstButton "Edit"),
       RVEvent.step (Step.expectVisible "Edit Expense"),
       RVEvent.step (Step.screenshot "jules-scratch/verification/edit-expense-page.png"),
       RVEvent.step (Step.clickButton "Update Expense"),
       RVEvent.step (Step.expectVisible "No Changes"),
       RVEvent.step (Step.screenshot "jules-scratch/verification/no-changes-alert.png"),
       RVEvent.step Step.goBack,
       RVEvent.step (Step.expectVisible "Discard changes?"),
       RVEvent.step (Step.screenshot "jules-scratch/verification/discard-changes-alert.png"),
       RVEvent.close, RVEvent.pwExit] :=
  ⟨rfl, C2_fixed_sequence goodEnv rfl⟩

/-- Claim C3: any failure — navigation, missing control, assertion
timeout, or screenshot-write failure — aborts the run at the failing
step: the completed steps are exactly the steps before it (each of which
ran once and succeeded, with no retry), no later step of the sequence
executes, and the browser is still closed exactly once. -/
theorem C3_failure_aborts_and_still_releases (env : Env) (e : Err)
    (h1 : env.launchOk = true) (h2 : env.newPageOk = true)
    (h : (run_verification env).2 = some e) :
    (∃ k s, bodySteps[k]? = some s ∧
       (runBody env 0 bodySteps).1 = bodySteps.take k ∧
       runStep env k s = some e ∧
       ∀ j, j < k → ∃ s2, bodySteps[j]? = some s2 ∧ runStep env j s2 = none) ∧
    countEvent RVEvent.close (run_verification env).1 = 1 := by
  have hr := run_verification_ok_body env h1 h2
  rw [hr] at h
  obtain ⟨k, s, hget, hdone, hstep, hprev⟩ := runBody_fail env e bodySteps 0 h
  constructor
  · refine ⟨k, s, hget, hdone, by simpa using hstep, ?_⟩
    intro j hj
    obtain ⟨s2, hg2, hr2⟩ := hprev j hj
    exact ⟨s2, hg2, by simpa using hr2⟩
  · rw [hr]
    have hc : countEvent RVEvent.close
        ((runBody env 0 bodySteps).1.map RVEvent.step) = 0 :=
      countEvent_map_step _ (fun s2 hc2 => RVEvent.noConfusion hc2) _
    simp [countEvent_append, countEvent, hc]

/-- Witness for C3: with the dashboard unreachable, the run fails at the
first step (the failing step is the goto, zero steps completed) and the
browser is still closed exactly once. -/
theorem C3_failure_aborts_and_still_releases_witness :
    (run_verification envGotoFail).2 = some Err.navError ∧
    ((∃ k s, bodySteps[k]? = some s ∧
        (runBody envGotoFail 0 bodySteps).1 = bodySteps.take k ∧
        runStep envGotoFail k s = some Err.navError ∧
        ∀ j, j < k → ∃ s2, bodySteps[j]? = some s2 ∧
          runStep envGotoFail j s2 = none) ∧
      countEvent RVEvent.close (run_verification envGotoFail).1 = 1) :=
  ⟨rfl, C3_failure_aborts_and_still_releases envGotoFail Err.navError rfl rfl rfl⟩

/-- Claim C4: the three visibility assertions (for "Edit Expense",
"No Changes" and "Discard changes?") are bounded polling waits: each
re-checks visibility tick by tick, returns success exactly when the text
is visible at some tick within the fixed window, and otherwise returns a
descriptive timeout error naming the text; being a total function, the
wait always terminates with one of those two outcomes. -/
theorem C4_visibility_assertions_bounded_polling :
    (bodySteps[3]? = some (Step.expectVisible "Edit Expense") ∧
     bodySteps[6]? = some (Step.expectVisible "No Changes") ∧
     bodySteps[9]? = some (Step.expectVisible "Discard changes?")) ∧
    ∀ (env : Env) (i : Nat) (text : String),
      (expectVisibleResult env i text = none ↔
        ∃ t, t ≤ pollTimeoutTicks ∧ env.visibleAt i t text = true) ∧
      (expectVisibleResult env i text = none ∨
        expectVisibleResult env i text = some (Err.timeout text)) := by
  refine ⟨⟨by simp [bodySteps], by simp [bodySteps], by simp [bodySteps]⟩, ?_⟩
  intro env i text
  have key : poll (fun t => env.visibleAt i t text) pollTimeoutTicks 0 = true ↔
      ∃ t, t ≤ pollTimeoutTicks ∧ env.visibleAt i t text = true := by
    rw [poll_eq_true_iff]
    constructor <;> rintro ⟨k, hk, hc⟩ <;> exact ⟨k, hk, by simpa using hc⟩
  by_cases hp : poll (fun t => env.visibleAt i t text) pollTimeoutTicks 0 = true
  · have hres : expectVisibleResult env i text = none := by
      simp [expectVisibleResult, hp]
    exact ⟨iff_of_true hres (key.mp hp), Or.inl hres⟩
  · have hpf : poll (fun t => env.visibleAt i t text) pollTimeoutTicks 0 = false :=
      Bool.not_eq_true _ |>.mp hp
    have hres : expectVisibleResult env i text = some (Err.timeout text) := by
      simp [expectVisibleResult, hpf]
    refine ⟨iff_of_false (by simp [hres]) (fun hex => hp (key.mpr hex)), Or.inr hres⟩

/-- Claim C7: step 4 of the run (body index 2) clicks the locator
`get_by_role("button", name="Edit").first`: the control invoked is the
first control of the page matching role button and name Edit, and the
click succeeds exactly when at least one such control exists. -/
theorem C7_edit_lookup_selects_first_match :
    bodySteps[2]? = some (Step.clickFirstButton "Edit") ∧
    ∀ cs : List Control,
      firstButton cs "Edit" =
        cs.find? (fun c => c.role == "button" && c.name == "Edit") ∧
      (clickFirstResult cs "Edit" = none ↔
        ∃ c, c ∈ cs ∧ c.role = "button" ∧ c.name = "Edit") := by
  refine ⟨by simp [bodySteps], ?_⟩
  intro cs
  have hmem : (∃ c, c ∈ cs ∧ c.role = "button" ∧ c.name = "Edit") ↔
      findButtons cs "Edit" ≠ [] := by
    unfold findButtons
    constructor
    · rintro ⟨c, hc, hrole, hname⟩ hnil
      have := (List.filter_eq_nil_iff.mp hnil) c hc
      simp [hrole, hname] at this
    · intro hne
      rcases hl : cs.filter (fun c => c.role == "button" && c.name == "Edit")
        with _ | ⟨c, l⟩
      · exact absurd hl hne
      · have hc : c ∈ cs.filter (fun c => c.role == "button" && c.name == "Edit") := by
          rw [hl]; exact List.mem_cons_self _ _
        have hcc := List.mem_filter.mp hc
        have hb := hcc.2
        simp only [Bool.and_eq_true, beq_iff_eq] at hb
        exact ⟨c, hcc.1, hb.1, hb.2⟩
  constructor
  · unfold firstButton findButtons
    exact head_filter_eq_find _ cs
  · cases hfb : firstButton cs "Edit" with
    | none =>
      have hnil : findButtons cs "Edit" = [] := by
        unfold firstButton at hfb
        exact List.head?_eq_none_iff.mp hfb
      simp [clickFirstResult, hfb, hmem, hnil]
    | some c =>
      have hne : findButtons cs "Edit" ≠ [] := by
        intro hnil
        unfold firstButton at hfb
        rw [hnil] at hfb
        exact Option.noConfusion hfb
      simp [clickFirstResult, hfb, hmem, hne]

/-- Claim C6: the entry point takes no arguments, flags or environment
variables (mainExitCode is a function of the external world alone), and
the exit status is zero exactly when every step completed, non-zero
exactly when some failure propagated out of run_verification. -/
theorem C6_entry_exit_status (env : Env) :
    (mainExitCode env = 0 ↔ (run_verification env).2 = none) ∧
    (mainExitCode env ≠ 0 ↔ ∃ e, (run_verification env).2 = some e) := by
  cases hr : (run_verification env).2 with
  | none => simp [mainExitCode, hr]
  | some e => simp [mainExitCode, hr]

/-- Claim C10: browser launch and page creation happen before the
try/finally region: when new_page fails after a successful launch, the
trace shows the launch and the sync_playwright scope exit but no
browser.close event — release of the launched browser rests solely on
the scope exit. -/
theorem C10_newpage_failure_skips_browser_closing (env : Env)
    (h1 : env.launchOk = true) (h2 : env.newPageOk = false) :
    (run_verification env).1 = [RVEvent.pwStart, RVEvent.launch, RVEvent.pwExit] ∧
    RVEvent.close ∉ (run_verification env).1 ∧
    RVEvent.pwExit ∈ (run_verification env).1 ∧
    (run_verification env).2 = some Err.newPageError := by
  simp [run_verification, h1, h2]

/-- Witness for C10: concrete environment whose new_page fails. -/
theorem C10_newpage_failure_skips_browser_closing_witness :
    (run_verification envNoPage).1 = [RVEvent.pwStart, RVEvent.launch, RVEvent.pwExit] ∧
    RVEvent.close ∉ (run_verification envNoPage).1 ∧
    RVEvent.pwExit ∈ (run_verification envNoPage).1 ∧
    (run_verification envNoPage).2 = some Err.newPageError :=
  C10_newpage_failure_skips_browser_closing envNoPage rfl rfl

/-- Claim C5: the only persisted side effects of a complete run are the
four screenshot writes, in order, at the four fixed relative paths, all
inside the single fixed relative directory jules-scratch/verification;
each write stores the captured content at its path irrespective of what
was there before (overwrite), and every other path of the filesystem is
left exactly as it was. -/
theorem C5_only_side_effects_four_screenshots (env : Env)
    (fs : String → Option Nat) (h : (run_verification env).2 = none) :
    writesOf (completedSteps env) = screenshotPaths ∧
    screenshotPaths =
      ["jules-scratch/verification/" ++ "dashboard-page.png",
       "jules-scratch/verification/" ++ "edit-expense-page.png",
       "jules-scratch/verification/" ++ "no-changes-alert.png",
       "jules-scratch/verification/" ++ "discard-changes-alert.png"] ∧
    (∀ p, p ∈ screenshotPaths →
      runFS env fs (completedSteps env) p = some (env.content p)) ∧
    (∀ q, q ∉ screenshotPaths → runFS env fs (completedSteps env) q = fs q) := by
  obtain ⟨h1, h2⟩ := run_success_launch env h
  have hr := run_verification_ok_body env h1 h2
  rw [hr] at h
  have hb : (runBody env 0 bodySteps).1 = bodySteps :=
    runBody_none env bodySteps 0 h
  have hcs : completedSteps env = bodySteps := by
    simp [completedSteps, h1, h2, hb]
  rw [hcs]
  have hw : writesOf bodySteps = screenshotPaths := rfl
  refine ⟨hw, by decide, ?_, ?_⟩
  · intro p hp
    exact runFS_written env bodySteps fs p (by rw [hw]; exact hp)
  · intro q hq
    exact runFS_frame env bodySteps fs q (by rw [hw]; exact hq)

/-- Witness for C5: the all-successful run, starting from an empty
filesystem, writes exactly the four screenshots. -/
theorem C5_only_side_effects_four_screenshots_witness :
    (run_verification goodEnv).2 = none ∧
    (writesOf (completedSteps goodEnv) = screenshotPaths ∧
     screenshotPaths =
       ["jules-scratch/verification/" ++ "dashboard-page.png",
        "jules-scratch/verification/" ++ "edit-expense-page.png",
        "jules-scratch/verification/" ++ "no-changes-alert.png",
        "jules-scratch/verification/" ++ "discard-changes-alert.png"] ∧
     (∀ p, p ∈ screenshotPaths →
       runFS goodEnv (fun _ => none) (completedSteps goodEnv) p =
         some (goodEnv.content p)) ∧
     (∀ q, q ∉ screenshotPaths →
       runFS goodEnv (fun _ => none) (completedSteps goodEnv) q = none)) :=
  ⟨rfl, C5_only_side_effects_four_screenshots goodEnv (fun _ => none) rfl⟩

/-- Claim C8: when no control with role button and accessible name Edit
exists on the initial page, the run fails at step 4 (body index 2) with
an element-not-found error, only the navigation and the first screenshot
have executed, and the browser is still closed exactly once. -/
theorem C8_no_edit_button_fails_and_releases (env : Env)
    (h1 : env.launchOk = true) (h2 : env.newPageOk = true)
    (h3 : env.gotoOk "http://localhost:8081" = true)
    (h4 : env.writeOk "jules-scratch/verification/dashboard-page.png" = true)
    (h5 : findButtons (env.controlsAt 2) "Edit" = []) :
    (run_verification env).2 = some (Err.notFound "Edit") ∧
    completedSteps env = bodySteps.take 2 ∧
    countEvent RVEvent.close (run_verification env).1 = 1 := by
  have hr := run_verification_ok_body env h1 h2
  have hfirst : firstButton (env.controlsAt 2) "Edit" = none := by
    unfold firstButton
    rw [h5]
    rfl
  have hrb : runBody env 0 bodySteps =
      (bodySteps.take 2, some (Err.notFound "Edit")) := by
    simp [bodySteps, runBody, runStep, h3, h4, clickFirstResult, hfirst]
  refine ⟨?_, ?_, ?_⟩
  · rw [hr]; simp [hrb]
  · simp [completedSteps, h1, h2, hrb]
  · rw [hr]
    have hc : countEvent RVEvent.close
        ((runBody env 0 bodySteps).1.map RVEvent.step) = 0 :=
      countEvent_map_step _ (fun s hc2 => RVEvent.noConfusion hc2) _
    simp [countEvent_append, countEvent, hc]

/-- Witness for C8: a dashboard page with no controls at all. -/
theorem C8_no_edit_button_fails_and_releases_witness :
    findButtons (envNoEdit.controlsAt 2) "Edit" = [] ∧
    ((run_verification envNoEdit).2 = some (Err.notFound "Edit") ∧
     completedSteps envNoEdit = bodySteps.take 2 ∧
     countEvent RVEvent.close (run_verification envNoEdit).1 = 1) :=
  ⟨rfl, C8_no_edit_button_fails_and_releases envNoEdit rfl rfl rfl rfl rfl⟩

/-- Claim C9: unlike the Edit lookup, the Update Expense lookup carries
no .first: when the first five body steps succeed and more than one
button with accessible name Update Expense is present as step 7 (body
index 5) runs, the click fails with a strict-mode ambiguity error and
the run aborts with exactly the first five steps completed, whereas a
.first lookup against the same page would have succeeded. -/
theorem C9_update_expense_lookup_is_strict (env : Env)
    (h1 : env.launchOk = true) (h2 : env.newPageOk = true)
    (hpre : (runBody env 0 (bodySteps.take 5)).2 = none)
    (hmulti : 2 ≤ (findButtons (env.controlsAt 5) "Update Expense").length) :
    (run_verification env).2 = some (Err.strictViolation "Update Expense") ∧
    completedSteps env = bodySteps.take 5 ∧
    clickFirstResult (env.controlsAt 5) "Update Expense" = none := by
  have hr := run_verification_ok_body env h1 h2
  have hstep5 : runStep env 5 (Step.clickButton "Update Expense") =
      some (Err.strictViolation "Update Expense") :=
    clickStrict_of_two _ _ hmulti
  have hdrop : runBody env 5 (bodySteps.drop 5) =
      ([], some (Err.strictViolation "Update Expense")) := by
    simp [bodySteps, runBody, hstep5]
  have happ := runBody_append env (bodySteps.take 5) (bodySteps.drop 5) 0 hpre
  have hfull : runBody env 0 bodySteps =
      ((runBody env 0 (bodySteps.take 5)).1,
       some (Err.strictViolation "Update Expense")) := by
    conv_lhs => rw [(List.take_append_drop 5 bodySteps).symm]
    rw [happ, show (0 : Nat) + (bodySteps.take 5).length = 5 from rfl, hdrop]
    simp
  have hdone : (runBody env 0 (bodySteps.take 5)).1 = bodySteps.take 5 :=
    runBody_none env (bodySteps.take 5) 0 hpre
  refine ⟨?_, ?_, ?_⟩
  · rw [hr]; simp [hfull]
  · simp [completedSteps, h1, h2, hfull, hdone]
  · apply clickFirst_of_ne_nil
    intro hnil
    rw [hnil] at hmulti
    simp at hmulti

/-- Witness for C9: a page with one Edit button and two Update Expense
buttons; the first five steps succeed and the strict lookup then fails
with the ambiguity error. -/
theorem C9_update_expense_lookup_is_strict_witness :
    (runBody envTwoUpdate 0 (bodySteps.take 5)).2 = none ∧
    2 ≤ (findButtons (envTwoUpdate.controlsAt 5) "Update Expense").length ∧
    ((run_verification envTwoUpdate).2 =
       some (Err.strictViolation "Update Expense") ∧
     completedSteps envTwoUpdate = bodySteps.take 5 ∧
     clickFirstResult (envTwoUpdate.controlsAt 5) "Update Expense" = none) :=
  ⟨rfl, by decide,
    C9_update_expense_lookup_is_strict envTwoUpdate rfl rfl rfl (by decide)⟩

end ExpTrack
